import Mathlib

/-!
Verification of the user-dictionary manager of AivisSpeech-Engine
(src/voicevox_engine/user_dict/user_dict_manager.py), shallowly embedded.

The store is a Python dict mapping a UUID string to a word record; Python
dicts keep insertion order, assignment to an existing key replaces its value
in place, and assignment to a fresh key appends.  We embed it as an
association list with exactly those operations.
-/

namespace UserDict

/-- The word record stored in the user dictionary (UserDictWord).  Field
names and types follow the fields the manager reads when it renders a word
to a CSV line (user_dict_manager.py, update_dict). -/
structure UserDictWord where
  surface : String
  context_id : Int
  priority : Int
  part_of_speech : String
  part_of_speech_detail_1 : String
  part_of_speech_detail_2 : String
  part_of_speech_detail_3 : String
  inflectional_type : String
  inflectional_form : String
  stem : String
  yomi : String
  pronunciation : String
  accent_type : Nat
  mora_count : Nat
  accent_associative_rule : String
  deriving DecidableEq, Repr

/-- The user dictionary: a Python dict from UUID string to word record,
embedded as an insertion-ordered association list with unique keys. -/
abbrev Store : Type := List (String × UserDictWord)

/-- Python dict lookup on the embedded store. -/
def lookup (k : String) : Store → Option UserDictWord
  | [] => none
  | (k1, v1) :: rest => if k1 = k then some v1 else lookup k rest

/-- Python dict assignment d[k] = v: replace in place if the key exists,
append otherwise. -/
def insertEntry (k : String) (v : UserDictWord) : Store → Store
  | [] => [(k, v)]
  | (k1, v1) :: rest => if k1 = k then (k1, v) :: rest else (k1, v1) :: insertEntry k v rest

/-- Python del d[k]: remove the entry with the given key. -/
def eraseEntry (k : String) : Store → Store
  | [] => []
  | (k1, v1) :: rest => if k1 = k then rest else (k1, v1) :: eraseEntry k rest

/-- The keys of the store, in insertion order. -/
def keys (s : Store) : List String := s.map Prod.fst

/-- Python dict merge from the left operand, updating with the entries of
the right operand in order: the right operand wins on key collision.  This
is the meaning of the double-splat merge used by import_user_dict. -/
def mergeDicts (a b : Store) : Store :=
  b.foldl (fun acc kv => insertEntry kv.1 kv.2 acc) a

theorem lookup_insertEntry_self (k : String) (v : UserDictWord) (s : Store) :
    lookup k (insertEntry k v s) = some v := by
  induction s with
  | nil => simp [insertEntry, lookup]
  | cons hd tl ih =>
    obtain ⟨k1, v1⟩ := hd
    by_cases h : k1 = k
    · simp [insertEntry, lookup, h]
    · simp [insertEntry, lookup, h, ih]

theorem lookup_insertEntry_ne (k k1 : String) (v : UserDictWord) (s : Store)
    (h : k1 ≠ k) : lookup k (insertEntry k1 v s) = lookup k s := by
  induction s with
  | nil => simp [insertEntry, lookup, h]
  | cons hd tl ih =>
    obtain ⟨k2, v2⟩ := hd
    by_cases h2 : k2 = k1
    · subst h2
      simp [insertEntry, lookup, h]
    · simp [insertEntry, lookup, h2, ih]

theorem lookup_eq_none_iff_not_mem_keys (k : String) (s : Store) :
    lookup k s = none ↔ k ∉ keys s := by
  induction s with
  | nil => simp [lookup, keys]
  | cons hd tl ih =>
    obtain ⟨k1, v1⟩ := hd
    by_cases h : k1 = k
    · simp [lookup, keys, h]
    · simp [lookup, keys, h, ih, Ne.symm h]

theorem insertEntry_of_lookup_none (k : String) (v : UserDictWord) (s : Store)
    (h : lookup k s = none) : insertEntry k v s = s ++ [(k, v)] := by
  induction s with
  | nil => simp [insertEntry]
  | cons hd tl ih =>
    obtain ⟨k1, v1⟩ := hd
    by_cases h1 : k1 = k
    · simp [lookup, h1] at h
    · simp [lookup, h1] at h
      simp [insertEntry, h1, ih h]

theorem keys_cons (k : String) (v : UserDictWord) (tl : Store) :
    keys ((k, v) :: tl) = k :: keys tl := rfl

theorem keys_insertEntry_of_mem (k : String) (v : UserDictWord) (s : Store)
    (hm : k ∈ keys s) : keys (insertEntry k v s) = keys s := by
  induction s with
  | nil => simp [keys] at hm
  | cons hd tl ih =>
    obtain ⟨k1, v1⟩ := hd
    by_cases h : k1 = k
    · simp [insertEntry, h, keys_cons]
    · rw [keys_cons, List.mem_cons] at hm
      rcases hm with hm | hm
      · exact absurd hm.symm h
      · simp only [insertEntry, if_neg h, keys_cons, ih hm]

theorem keys_insertEntry_of_not_mem (k : String) (v : UserDictWord) (s : Store)
    (hm : k ∉ keys s) : keys (insertEntry k v s) = keys s ++ [k] := by
  induction s with
  | nil => simp [insertEntry, keys]
  | cons hd tl ih =>
    obtain ⟨k1, v1⟩ := hd
    rw [keys_cons, List.mem_cons] at hm
    push_neg at hm
    have h : k1 ≠ k := fun hh => hm.1 hh.symm
    simp only [insertEntry, if_neg h, keys_cons, ih hm.2, List.cons_append]

theorem keys_nodup_insertEntry (k : String) (v : UserDictWord) (s : Store)
    (h : (keys s).Nodup) : (keys (insertEntry k v s)).Nodup := by
  by_cases hm : k ∈ keys s
  · rw [keys_insertEntry_of_mem k v s hm]
    exact h
  · rw [keys_insertEntry_of_not_mem k v s hm]
    simpa [List.nodup_append, hm] using h

theorem lookup_mergeDicts_of_lookup_none (k : String) (a b : Store)
    (h : lookup k b = none) : lookup k (mergeDicts a b) = lookup k a := by
  induction b generalizing a with
  | nil => simp [mergeDicts]
  | cons hd tl ih =>
    obtain ⟨k1, v1⟩ := hd
    by_cases h1 : k1 = k
    · simp [lookup, h1] at h
    · simp [lookup, h1] at h
      have : mergeDicts a ((k1, v1) :: tl) = mergeDicts (insertEntry k1 v1 a) tl := by
        simp [mergeDicts]
      rw [this, ih _ h, lookup_insertEntry_ne k k1 v1 a h1]

theorem lookup_mergeDicts_of_lookup_some (k : String) (v : UserDictWord) (a b : Store)
    (hnd : (keys b).Nodup) (h : lookup k b = some v) :
    lookup k (mergeDicts a b) = some v := by
  induction b generalizing a with
  | nil => simp [lookup] at h
  | cons hd tl ih =>
    obtain ⟨k1, v1⟩ := hd
    have hstep : mergeDicts a ((k1, v1) :: tl) = mergeDicts (insertEntry k1 v1 a) tl := by
      simp [mergeDicts]
    simp only [keys, List.map_cons, List.nodup_cons] at hnd
    by_cases h1 : k1 = k
    · subst h1
      simp [lookup] at h
      subst h
      have hnone : lookup k1 tl = none := by
        rw [lookup_eq_none_iff_not_mem_keys]
        exact hnd.1
      rw [hstep, lookup_mergeDicts_of_lookup_none k1 _ tl hnone,
        lookup_insertEntry_self]
    · simp only [lookup, if_neg h1] at h
      rw [hstep]
      exact ih (insertEntry k1 v1 a) hnd.2 h

/-- Errors raised by the dictionary manager.  UserDictInputError is what
the code raises when an identifier is absent (the spec calls this kind
NotFoundError); ValueError and AssertionError arise during import
validation. -/
inductive DictErr where
  | userDictInputError (msg : String)
  | valueError (msg : String)
  | assertionError
  deriving DecidableEq, Repr

/-- Observable side effects of a manager operation: writing the store file
(_write_to_json) and triggering recompilation (update_dict). -/
inductive Event where
  | writeStore (s : Store)
  | recompile
  deriving DecidableEq, Repr

/-- One row of the static part-of-speech reference table
(part_of_speech_data).  The fields are exactly those the import validation
loop in user_dict_manager.py reads. -/
structure PartOfSpeechDetail where
  part_of_speech : String
  part_of_speech_detail_1 : String
  part_of_speech_detail_2 : String
  part_of_speech_detail_3 : String
  context_id : Int
  accent_associative_rules : List String
  deriving DecidableEq, Repr

/-- UserDictionary.apply_word: read the store, bind a fresh UUID to the
record built from the word property, write the store back, recompile,
return the UUID.  The UUID produced by uuid4 and the create_word codec
(defined outside this file's sources) are parameters. -/
def apply_word {P : Type} (create_word : P → UserDictWord) (word_uuid : String)
    (word_property : P) (user_dict : Store) : String × Store × List Event :=
  let new_dict := insertEntry word_uuid (create_word word_property) user_dict
  (word_uuid, new_dict, [Event.writeStore new_dict, Event.recompile])

/-- UserDictionary.delete_word: raise UserDictInputError when the UUID is
absent; otherwise delete the entry, write the store back and recompile.
On success the written store is returned together with the event trace;
on error nothing was written. -/
def delete_word (word_uuid : String) (user_dict : Store) :
    Except DictErr (Store × List Event) :=
  if (lookup word_uuid user_dict).isSome then
    let new_dict := eraseEntry word_uuid user_dict
    Except.ok (new_dict, [Event.writeStore new_dict, Event.recompile])
  else
    Except.error (DictErr.userDictInputError "IDに該当するワードが見つかりませんでした")

/-- UserDictionary.rewrite_word: raise UserDictInputError when the UUID is
absent; otherwise overwrite the record, write the store back and
recompile. -/
def rewrite_word {P : Type} (create_word : P → UserDictWord) (word_uuid : String)
    (word_property : P) (user_dict : Store) : Except DictErr (Store × List Event) :=
  if (lookup word_uuid user_dict).isSome then
    let new_dict := insertEntry word_uuid (create_word word_property) user_dict
    Except.ok (new_dict, [Event.writeStore new_dict, Event.recompile])
  else
    Except.error (DictErr.userDictInputError "UUIDに該当するワードが見つかりませんでした")

/-- The per-word validation of import_user_dict: scan part_of_speech_data
for the first row with the word's context_id (the for loop with break);
raise ValueError when none matches (the for-else branch); assert that the
four part-of-speech fields match the row and that the accent-associative
rule belongs to the row's allowed set. -/
def validateWordPos (table : List PartOfSpeechDetail) (word : UserDictWord) :
    Except DictErr Unit :=
  match table.find? (fun pos => pos.context_id == word.context_id) with
  | none => Except.error (DictErr.valueError "対応していない品詞です")
  | some pos =>
      if word.part_of_speech = pos.part_of_speech
          ∧ word.part_of_speech_detail_1 = pos.part_of_speech_detail_1
          ∧ word.part_of_speech_detail_2 = pos.part_of_speech_detail_2
          ∧ word.part_of_speech_detail_3 = pos.part_of_speech_detail_3
          ∧ word.accent_associative_rule ∈ pos.accent_associative_rules then
        Except.ok ()
      else
        Except.error DictErr.assertionError

/-- The validation loop of import_user_dict over all incoming entries, in
order: UUID well-formedness (the UUID constructor call, modelled by the
predicate valid_uuid since the UUID codec is defined outside this file's
sources) and then the part-of-speech validation; the first failure
aborts. -/
def validateImportData (table : List PartOfSpeechDetail) (valid_uuid : String → Bool) :
    List (String × UserDictWord) → Except DictErr Unit
  | [] => Except.ok ()
  | (word_uuid, word) :: rest =>
      if valid_uuid word_uuid then
        match validateWordPos table word with
        | Except.ok _ => validateImportData table valid_uuid rest
        | Except.error e => Except.error e
      else
        Except.error (DictErr.valueError "badly formed hexadecimal UUID string")

/-- UserDictionary.import_user_dict: validate every incoming entry first;
then read the existing store and merge — with override the incoming data
is splatted last (incoming wins on collision), without it the existing
store is splatted last (existing wins); finally one write and one
recompilation. -/
def import_user_dict (table : List PartOfSpeechDetail) (valid_uuid : String → Bool)
    (dict_data : Store) (override : Bool) (old_dict : Store) :
    Except DictErr (Store × List Event) :=
  match validateImportData table valid_uuid dict_data with
  | Except.error e => Except.error e
  | Except.ok _ =>
      let new_dict := if override then mergeDicts old_dict dict_data
                      else mergeDicts dict_data old_dict
      Except.ok (new_dict, [Event.writeStore new_dict, Event.recompile])

/-! ## The recompilation pipeline (UserDictionary.update_dict)

The file-system and analyzer state touched by update_dict.  α is the type
of compiled artifacts (the content of a compiled dictionary file).  The two
temporary paths carry a fresh random suffix per invocation, so at entry the
corresponding files do not exist; the fields tmp_csv and tmp_compiled hold
the contents of this invocation's temporary files (none = absent). -/

structure EngineState (α : Type) where
  store : Store
  compiled_dict : Option α
  tmp_csv : Option String
  tmp_compiled : Option α
  active_slot : Option α
  deriving Repr

/-- Append a trailing newline to a decompressed default-dictionary file
when it lacks one (update_dict, default dictionary loop). -/
def ensureTrailingNewline (s : String) : String :=
  if s.endsWith "\n" then s else s ++ "\n"

/-- The CSV line update_dict renders for one user-dictionary word.  The
cost function priority2cost lives outside this file's sources and is a
parameter. -/
def word_csv_line (priority2cost : Int → Int → Int) (w : UserDictWord) : String :=
  w.surface ++ "," ++ toString w.context_id ++ "," ++ toString w.context_id ++ ","
    ++ toString (priority2cost w.context_id w.priority) ++ ","
    ++ w.part_of_speech ++ "," ++ w.part_of_speech_detail_1 ++ ","
    ++ w.part_of_speech_detail_2 ++ "," ++ w.part_of_speech_detail_3 ++ ","
    ++ w.inflectional_type ++ "," ++ w.inflectional_form ++ ","
    ++ w.stem ++ "," ++ w.yomi ++ "," ++ w.pronunciation ++ ","
    ++ toString w.accent_type ++ "/" ++ toString w.mora_count ++ ","
    ++ w.accent_associative_rule ++ "\n"

/-- The full CSV text update_dict stages: the decompressed default
dictionary files in order, then one line per user-dictionary entry. -/
def build_csv_text (priority2cost : Int → Int → Int)
    (default_dict_files : List String) (user_dict : Store) : String :=
  String.join (default_dict_files.map ensureTrailingNewline)
    ++ String.join (user_dict.map (fun kv => word_csv_line priority2cost kv.2))

/-- The finally block of update_dict: unlink each temporary file that
exists. -/
def cleanupTmp {α : Type} (st : EngineState α) : EngineState α :=
  { st with tmp_csv := none, tmp_compiled := none }

/-- UserDictionary.update_dict, step by step.

The external compiler (pyopenjtalk.mecab_dict_index plus the subsequent
is_file check) is the parameter compilerFn: some artifact when compilation
produced the output file, none when it failed or produced nothing.
default_dict_files holds the decompressed contents, in the order the code
reads them (the sorted glob, or the single default CSV under pytest); when
it is empty the code logs and returns.  Under pytest on Windows the whole
update is skipped before the try block.  The result pairs what the call
raises (Except) with the state after the finally block ran. -/
def update_dict {α : Type} (compilerFn : String → Option α)
    (is_pytest is_win32 : Bool) (default_dict_files : List String)
    (priority2cost : Int → Int → Int) (st : EngineState α) :
    Except String Unit × EngineState α :=
  if is_pytest && is_win32 then
    (Except.ok (), st)
  else if default_dict_files.isEmpty then
    -- logger.warning, then return; the finally block finds no temporary file
    (Except.ok (), cleanupTmp st)
  else
    let csv_text := build_csv_text priority2cost default_dict_files st.store
    -- tmp_csv_path.write_text
    let st1 := { st with tmp_csv := some csv_text }
    match compilerFn csv_text with
    | none =>
        -- the compiled output file is absent: RuntimeError, then finally
        (Except.error "辞書のコンパイル時にエラーが発生しました。", cleanupTmp st1)
    | some artifact =>
        let st2 := { st1 with tmp_compiled := some artifact }
        -- pyopenjtalk.unset_user_dict
        let st3 := { st2 with active_slot := none }
        -- tmp_compiled_path.replace(compiled_dict_path): an atomic move
        let st4 := { st3 with compiled_dict := some artifact, tmp_compiled := none }
        -- if compiled_dict_path.is_file(): register with the analyzer
        let st5 := if st4.compiled_dict.isSome
                   then { st4 with active_slot := st4.compiled_dict }
                   else st4
        (Except.ok (), cleanupTmp st5)

/-- UserDictionary.__init__: store the three paths, then call update_dict
before returning. -/
def userDictionaryInit {α : Type} (compilerFn : String → Option α)
    (is_pytest is_win32 : Bool) (default_dict_files : List String)
    (priority2cost : Int → Int → Int) (st : EngineState α) :
    Except String Unit × EngineState α :=
  update_dict compilerFn is_pytest is_win32 default_dict_files priority2cost st

/-! ## The persistent store file (read_dict / _write_to_json)

σ is the save-format word type (SaveFormatUserDictWord) and the two codec
functions convert_to_save_format / convert_from_save_format are parameters,
together with the UUID canonicalisation str(UUID(·)) the reader applies to
every key. -/

/-- UserDictionary.read_dict on a present, parseable store file: rebuild
the dictionary entry by entry, canonicalising each key through str(UUID(·))
and decoding each value from its save format. -/
def read_dict {σ : Type} (convert_from_save_format : σ → UserDictWord)
    (canon_uuid : String → String) (entries : List (String × σ)) : Store :=
  entries.foldl
    (fun result kv => insertEntry (canon_uuid kv.1) (convert_from_save_format kv.2) result)
    []

/-- UserDictionary._write_to_json: encode every entry to its save format,
in store order, and serialise the resulting mapping. -/
def write_to_json {σ : Type} (convert_to_save_format : UserDictWord → σ)
    (user_dict : Store) : List (String × σ) :=
  user_dict.map (fun kv => (kv.1, convert_to_save_format kv.2))

/-! ## Concurrent apply_word calls

apply_word itself carries no mutex_wrapper decorator: only the read_dict
call and the _write_to_json call inside it run under mutex_user_dict.  Two
threads running apply_word therefore interleave at the granularity of those
two lock-protected sections.  Each thread's program is: step 0, read the
shared store into a private snapshot (read_dict, atomic under the lock);
step 1, write back the snapshot with the thread's own fresh UUID inserted
(_write_to_json, atomic under the lock); step 2, done (the UUID has been
returned). -/

structure ConcState where
  shared : Store
  snapA : Option Store
  snapB : Option Store
  pcA : Nat
  pcB : Nat
  deriving Repr

/-- One lock-protected step of a thread running apply_word with the given
fresh UUID and word record: returns the new shared store, snapshot and
program counter. -/
def applyWordStep (word_uuid : String) (w : UserDictWord) (shared : Store)
    (snap : Option Store) (pc : Nat) : Store × Option Store × Nat :=
  match pc, snap with
  | 0, _ => (shared, some shared, 1)
  | 1, some s => (insertEntry word_uuid w s, snap, 2)
  | _, _ => (shared, snap, pc)

/-- Run a schedule of lock-protected steps over two threads A and B, each
executing apply_word; false schedules a step of A, true a step of B. -/
def runSchedule (uuidA uuidB : String) (wA wB : UserDictWord) :
    List Bool → ConcState → ConcState
  | [], st => st
  | b :: rest, st =>
      if b then
        let r := applyWordStep uuidB wB st.shared st.snapB st.pcB
        runSchedule uuidA uuidB wA wB rest
          { st with shared := r.1, snapB := r.2.1, pcB := r.2.2 }
      else
        let r := applyWordStep uuidA wA st.shared st.snapA st.pcA
        runSchedule uuidA uuidB wA wB rest
          { st with shared := r.1, snapA := r.2.1, pcA := r.2.2 }

/-- Both threads at their entry point over an empty store. -/
def initialConcState : ConcState :=
  { shared := [], snapA := none, snapB := none, pcA := 0, pcB := 0 }

/-- A concrete word record for concrete-input evaluation. -/
def sampleWord : UserDictWord :=
  { surface := "テスト", context_id := 1348, priority := 5
    part_of_speech := "名詞", part_of_speech_detail_1 := "固有名詞"
    part_of_speech_detail_2 := "一般", part_of_speech_detail_3 := "*"
    inflectional_type := "*", inflectional_form := "*", stem := "*"
    yomi := "テスト", pronunciation := "テスト", accent_type := 1
    mora_count := 3, accent_associative_rule := "C1" }

/-- A second concrete word record, distinct from sampleWord. -/
def sampleWord2 : UserDictWord :=
  { sampleWord with surface := "ボイス", yomi := "ボイス", pronunciation := "ボイス" }

/-- A concrete part-of-speech reference row matching sampleWord, for
concrete-input evaluation. -/
def samplePosDetail : PartOfSpeechDetail :=
  { part_of_speech := "名詞", part_of_speech_detail_1 := "固有名詞"
    part_of_speech_detail_2 := "一般", part_of_speech_detail_3 := "*"
    context_id := 1348, accent_associative_rules := ["C1", "C2"] }

/-- The store file contents after a manager operation ran against a file
holding the given store: each writeStore event overwrites the file
wholesale; an operation that raised performed no write. -/
def storeFileAfter (file : Store) : Except DictErr (Store × List Event) → Store
  | Except.ok r =>
      r.2.foldl
        (fun acc ev => match ev with
          | Event.writeStore s => s
          | Event.recompile => acc)
        file
  | Except.error _ => file

/-! ## Helper lemmas shared by the claim theorems -/

theorem lookup_append_of_none (k : String) (s t : Store)
    (h : lookup k s = none) : lookup k (s ++ t) = lookup k t := by
  induction s with
  | nil => simp
  | cons hd tl ih =>
    obtain ⟨k1, v1⟩ := hd
    by_cases h1 : k1 = k
    · simp [lookup, h1] at h
    · simp only [lookup, if_neg h1] at h
      simpa only [List.cons_append, lookup, if_neg h1] using ih h

theorem lookup_append_of_some (k : String) (v : UserDictWord) (s t : Store)
    (h : lookup k s = some v) : lookup k (s ++ t) = some v := by
  induction s with
  | nil => simp [lookup] at h
  | cons hd tl ih =>
    obtain ⟨k1, v1⟩ := hd
    by_cases h1 : k1 = k
    · simp only [lookup, if_pos h1] at h
      simp [List.cons_append, lookup, if_pos h1, h]
    · simp only [lookup, if_neg h1] at h
      simpa only [List.cons_append, lookup, if_neg h1] using ih h

theorem lookup_eraseEntry_self (k : String) (s : Store)
    (hnd : (keys s).Nodup) : lookup k (eraseEntry k s) = none := by
  induction s with
  | nil => simp [eraseEntry, lookup]
  | cons hd tl ih =>
    obtain ⟨k1, v1⟩ := hd
    rw [keys_cons, List.nodup_cons] at hnd
    by_cases h1 : k1 = k
    · subst h1
      rw [lookup_eq_none_iff_not_mem_keys]
      simpa [eraseEntry] using hnd.1
    · simp only [eraseEntry, if_neg h1, lookup, if_neg h1]
      exact ih hnd.2

theorem lookup_eraseEntry_ne (k u : String) (s : Store)
    (h : k ≠ u) : lookup k (eraseEntry u s) = lookup k s := by
  induction s with
  | nil => simp [eraseEntry]
  | cons hd tl ih =>
    obtain ⟨k1, v1⟩ := hd
    by_cases h1 : k1 = u
    · subst h1
      simp [eraseEntry, lookup, Ne.symm h]
    · by_cases h2 : k1 = k
      · simp [eraseEntry, lookup, h1, h2, h]
      · simp [eraseEntry, lookup, h1, h2, ih]

theorem mem_insertEntry (kv : String × UserDictWord) (k : String)
    (v : UserDictWord) (s : Store) :
    kv ∈ insertEntry k v s → kv = (k, v) ∨ kv ∈ s := by
  induction s with
  | nil =>
    intro h
    simpa [insertEntry] using h
  | cons hd tl ih =>
    obtain ⟨k1, v1⟩ := hd
    intro h
    by_cases h1 : k1 = k
    · subst h1
      simp only [insertEntry, if_true, eq_self_iff_true, List.mem_cons] at h
      rcases h with h | h
      · exact Or.inl h
      · exact Or.inr (List.mem_cons_of_mem _ h)
    · simp only [insertEntry, if_neg h1, List.mem_cons] at h
      rcases h with h | h
      · exact Or.inr (List.mem_cons.mpr (Or.inl h))
      · rcases ih h with h2 | h2
        · exact Or.inl h2
        · exact Or.inr (List.mem_cons_of_mem _ h2)

theorem keys_nodup_read_fold {σ : Type} (f : σ → UserDictWord)
    (canon : String → String) (entries : List (String × σ)) (acc : Store)
    (h : (keys acc).Nodup) :
    (keys (entries.foldl (fun r kv => insertEntry (canon kv.1) (f kv.2) r) acc)).Nodup := by
  induction entries generalizing acc with
  | nil => simpa using h
  | cons hd tl ih =>
    simp only [List.foldl_cons]
    exact ih _ (keys_nodup_insertEntry _ _ _ h)

theorem read_fold_key_canon {σ : Type} (f : σ → UserDictWord)
    (canon : String → String) (hcanon : ∀ u, canon (canon u) = canon u)
    (entries : List (String × σ)) (acc : Store)
    (hacc : ∀ kv ∈ acc, canon kv.1 = kv.1) :
    ∀ kv ∈ entries.foldl (fun r kv => insertEntry (canon kv.1) (f kv.2) r) acc,
      canon kv.1 = kv.1 := by
  induction entries generalizing acc with
  | nil => simpa using hacc
  | cons hd tl ih =>
    simp only [List.foldl_cons]
    apply ih
    intro kv hkv
    rcases mem_insertEntry kv _ _ _ hkv with he | he
    · subst he
      simpa using hcanon hd.1
    · exact hacc kv he

theorem foldl_insert_fixed_eq_append (canon : String → String)
    (g : UserDictWord → UserDictWord) (l : Store) (acc : Store)
    (hpt : ∀ kv ∈ l, canon kv.1 = kv.1 ∧ g kv.2 = kv.2)
    (hnd : (keys (acc ++ l)).Nodup) :
    l.foldl (fun r kv => insertEntry (canon kv.1) (g kv.2) r) acc = acc ++ l := by
  induction l generalizing acc with
  | nil => simp
  | cons hd tl ih =>
    obtain ⟨k, v⟩ := hd
    obtain ⟨hck, hgv⟩ := hpt (k, v) (List.mem_cons_self _ _)
    have hndflat : (keys acc ++ k :: keys tl).Nodup := by
      simpa [keys, List.map_append] using hnd
    have hk : k ∉ keys acc := by
      intro hmem
      exact ((List.nodup_append.mp hndflat).2.2 hmem) (List.mem_cons_self _ _)
    have hins : insertEntry k v acc = acc ++ [(k, v)] :=
      insertEntry_of_lookup_none k v acc ((lookup_eq_none_iff_not_mem_keys k acc).mpr hk)
    have hstep : insertEntry (canon (k, v).1) (g (k, v).2) acc = acc ++ [(k, v)] := by
      simpa [hck, hgv] using hins
    simp only [List.foldl_cons, hstep]
    rw [ih (acc ++ [(k, v)]) ?hpt2 ?hnd2, List.append_assoc, List.singleton_append]
    case hpt2 =>
      intro kv hkv
      exact hpt kv (List.mem_cons_of_mem _ hkv)
    case hnd2 =>
      rw [List.append_assoc, List.singleton_append]
      exact hnd

theorem validateImportData_error_of_bad_entry (table : List PartOfSpeechDetail)
    (valid_uuid : String → Bool) (l : List (String × UserDictWord))
    (hbad : ∃ kv ∈ l, validateWordPos table kv.2 ≠ Except.ok ()) :
    ∃ e, validateImportData table valid_uuid l = Except.error e := by
  induction l with
  | nil => simp at hbad
  | cons hd tl ih =>
    obtain ⟨u, w⟩ := hd
    by_cases hv : valid_uuid u
    · cases hpos : validateWordPos table w with
      | error e => exact ⟨e, by simp [validateImportData, hv, hpos]⟩
      | ok uval =>
        cases uval
        obtain ⟨kv, hmem, hne⟩ := hbad
        rcases List.mem_cons.mp hmem with heq | hmem2
        · subst heq
          exact absurd hpos hne
        · obtain ⟨e, he⟩ := ih ⟨kv, hmem2, hne⟩
          exact ⟨e, by simp [validateImportData, hv, hpos, he]⟩
    · exact ⟨DictErr.valueError "badly formed hexadecimal UUID string",
        by simp [validateImportData, hv]⟩

/-! ## Claim theorems -/

/-- C5: for every word property and every prior store, apply_word (addWord)
returns the freshly generated identifier, and the resulting store is the
prior store plus exactly one appended entry binding that identifier to the
record built from the property; no existing entry is modified or removed
(lookups at every other key are unchanged), and the freshness of the
uuid4-generated identifier (a randomness assumption, taken as hypothesis)
means it was not previously present. -/
theorem apply_word_fresh_insert {P : Type} (create_word : P → UserDictWord)
    (word_uuid : String) (p : P) (store : Store)
    (hfresh : lookup word_uuid store = none) :
    apply_word create_word word_uuid p store
      = (word_uuid, store ++ [(word_uuid, create_word p)],
          [Event.writeStore (store ++ [(word_uuid, create_word p)]), Event.recompile])
    ∧ word_uuid ∉ keys store
    ∧ lookup word_uuid (store ++ [(word_uuid, create_word p)]) = some (create_word p)
    ∧ ∀ k, k ≠ word_uuid →
        lookup k (store ++ [(word_uuid, create_word p)]) = lookup k store := by
  refine ⟨?_, ?_, ?_, ?_⟩
  · simp [apply_word, insertEntry_of_lookup_none word_uuid (create_word p) store hfresh]
  · exact (lookup_eq_none_iff_not_mem_keys word_uuid store).mp hfresh
  · rw [lookup_append_of_none word_uuid store _ hfresh]
    simp [lookup]
  · intro k hk
    cases hcase : lookup k store with
    | some v => exact lookup_append_of_some k v store _ hcase
    | none =>
      rw [lookup_append_of_none k store _ hcase]
      simp [lookup, hcase, Ne.symm hk]

/-- C5 witness: apply_word at a concrete fresh identifier over a concrete
one-entry store. -/
theorem apply_word_fresh_insert_witness :
    lookup "11111111-1111-1111-1111-111111111111"
        [("22222222-2222-2222-2222-222222222222", sampleWord2)] = none
    ∧ (apply_word (fun _ : Unit => sampleWord)
          "11111111-1111-1111-1111-111111111111" ()
          [("22222222-2222-2222-2222-222222222222", sampleWord2)]
        = ("11111111-1111-1111-1111-111111111111",
            [("22222222-2222-2222-2222-222222222222", sampleWord2)]
              ++ [("11111111-1111-1111-1111-111111111111", sampleWord)],
            [Event.writeStore ([("22222222-2222-2222-2222-222222222222", sampleWord2)]
              ++ [("11111111-1111-1111-1111-111111111111", sampleWord)]),
             Event.recompile])
      ∧ "11111111-1111-1111-1111-111111111111"
          ∉ keys [("22222222-2222-2222-2222-222222222222", sampleWord2)]
      ∧ lookup "11111111-1111-1111-1111-111111111111"
            ([("22222222-2222-2222-2222-222222222222", sampleWord2)]
              ++ [("11111111-1111-1111-1111-111111111111", sampleWord)])
          = some sampleWord
      ∧ ∀ k, k ≠ "11111111-1111-1111-1111-111111111111" →
          lookup k ([("22222222-2222-2222-2222-222222222222", sampleWord2)]
              ++ [("11111111-1111-1111-1111-111111111111", sampleWord)])
            = lookup k [("22222222-2222-2222-2222-222222222222", sampleWord2)]) :=
  ⟨by simp [lookup],
    apply_word_fresh_insert (fun _ : Unit => sampleWord)
      "11111111-1111-1111-1111-111111111111" ()
      [("22222222-2222-2222-2222-222222222222", sampleWord2)] (by simp [lookup])⟩

/-- C7: delete_word (deleteWord) with an absent identifier raises
UserDictInputError (the NotFoundError of the spec) and performs no write;
with a present identifier it removes exactly that entry while every other
key is unchanged, persists the new store and recompiles once, and a second
delete_word with the same identifier then raises the same error. -/
theorem delete_word_spec (word_uuid : String) (s : Store)
    (hnd : (keys s).Nodup) :
    (lookup word_uuid s = none →
      delete_word word_uuid s
        = Except.error (DictErr.userDictInputError "IDに該当するワードが見つかりませんでした")
      ∧ storeFileAfter s (delete_word word_uuid s) = s)
    ∧ (∀ v, lookup word_uuid s = some v →
        delete_word word_uuid s
          = Except.ok (eraseEntry word_uuid s,
              [Event.writeStore (eraseEntry word_uuid s), Event.recompile])
        ∧ lookup word_uuid (eraseEntry word_uuid s) = none
        ∧ (∀ k, k ≠ word_uuid → lookup k (eraseEntry word_uuid s) = lookup k s)
        ∧ delete_word word_uuid (eraseEntry word_uuid s)
            = Except.error
                (DictErr.userDictInputError "IDに該当するワードが見つかりませんでした")) := by
  constructor
  · intro habs
    constructor
    · simp [delete_word, habs]
    · simp [storeFileAfter, delete_word, habs]
  · intro v hpres
    have herased : lookup word_uuid (eraseEntry word_uuid s) = none :=
      lookup_eraseEntry_self word_uuid s hnd
    refine ⟨?_, herased, ?_, ?_⟩
    · simp [delete_word, hpres]
    · intro k hk
      exact lookup_eraseEntry_ne k word_uuid s hk
    · simp [delete_word, herased]

/-- C7 witness: delete a present identifier from a concrete two-entry
store. -/
theorem delete_word_spec_witness :
    (keys [("aaaa", sampleWord), ("bbbb", sampleWord2)]).Nodup
    ∧ ((lookup "aaaa" [("aaaa", sampleWord), ("bbbb", sampleWord2)] = none →
          delete_word "aaaa" [("aaaa", sampleWord), ("bbbb", sampleWord2)]
            = Except.error
                (DictErr.userDictInputError "IDに該当するワードが見つかりませんでした")
          ∧ storeFileAfter [("aaaa", sampleWord), ("bbbb", sampleWord2)]
              (delete_word "aaaa" [("aaaa", sampleWord), ("bbbb", sampleWord2)])
            = [("aaaa", sampleWord), ("bbbb", sampleWord2)])
      ∧ (∀ v, lookup "aaaa" [("aaaa", sampleWord), ("bbbb", sampleWord2)] = some v →
          delete_word "aaaa" [("aaaa", sampleWord), ("bbbb", sampleWord2)]
            = Except.ok (eraseEntry "aaaa" [("aaaa", sampleWord), ("bbbb", sampleWord2)],
                [Event.writeStore
                    (eraseEntry "aaaa" [("aaaa", sampleWord), ("bbbb", sampleWord2)]),
                  Event.recompile])
          ∧ lookup "aaaa"
              (eraseEntry "aaaa" [("aaaa", sampleWord), ("bbbb", sampleWord2)]) = none
          ∧ (∀ k, k ≠ "aaaa" →
              lookup k (eraseEntry "aaaa" [("aaaa", sampleWord), ("bbbb", sampleWord2)])
                = lookup k [("aaaa", sampleWord), ("bbbb", sampleWord2)])
          ∧ delete_word "aaaa"
                (eraseEntry "aaaa" [("aaaa", sampleWord), ("bbbb", sampleWord2)])
              = Except.error
                  (DictErr.userDictInputError "IDに該当するワードが見つかりませんでした"))) :=
  ⟨by simp [keys], delete_word_spec "aaaa" [("aaaa", sampleWord), ("bbbb", sampleWord2)]
    (by simp [keys])⟩

/-- C2: when any single entry of the import payload fails the
part-of-speech/accent-rule validation, import_user_dict raises before any
write: the whole call returns an error (even when other entries are valid)
and the store file is left completely unchanged, hence no recompilation of
the compiled artifact happens either. -/
theorem import_user_dict_all_or_nothing (table : List PartOfSpeechDetail)
    (valid_uuid : String → Bool) (dict_data : Store) (override : Bool)
    (old_dict file : Store)
    (hbad : ∃ kv ∈ dict_data, validateWordPos table kv.2 ≠ Except.ok ()) :
    (∃ e, import_user_dict table valid_uuid dict_data override old_dict
        = Except.error e)
    ∧ storeFileAfter file
        (import_user_dict table valid_uuid dict_data override old_dict) = file := by
  obtain ⟨e, he⟩ :=
    validateImportData_error_of_bad_entry table valid_uuid dict_data hbad
  constructor
  · exact ⟨e, by simp [import_user_dict, he]⟩
  · simp [storeFileAfter, import_user_dict, he]

/-- C2 witness: an import payload with one entry whose part of speech is
unknown to the table, next to a valid entry, aborts with an error and
leaves a concrete store file untouched. -/
theorem import_user_dict_all_or_nothing_witness :
    (∃ kv ∈ [("aaaa", sampleWord), ("bbbb", { sampleWord2 with context_id := 9999 })],
        validateWordPos [samplePosDetail] kv.2 ≠ Except.ok ())
    ∧ (∃ e, import_user_dict [samplePosDetail] (fun _ => true)
          [("aaaa", sampleWord), ("bbbb", { sampleWord2 with context_id := 9999 })]
          false [("cccc", sampleWord)]
        = Except.error e)
    ∧ storeFileAfter [("cccc", sampleWord)]
        (import_user_dict [samplePosDetail] (fun _ => true)
          [("aaaa", sampleWord), ("bbbb", { sampleWord2 with context_id := 9999 })]
          false [("cccc", sampleWord)])
      = [("cccc", sampleWord)] := by
  have hbad : ∃ kv ∈ [("aaaa", sampleWord),
      ("bbbb", { sampleWord2 with context_id := 9999 })],
      validateWordPos [samplePosDetail] kv.2 ≠ Except.ok () := by
    refine ⟨("bbbb", { sampleWord2 with context_id := 9999 }), by simp, ?_⟩
    simp [validateWordPos, samplePosDetail, sampleWord2, sampleWord, List.find?]
  exact ⟨hbad, import_user_dict_all_or_nothing [samplePosDetail] (fun _ => true)
    [("aaaa", sampleWord), ("bbbb", { sampleWord2 with context_id := 9999 })]
    false [("cccc", sampleWord)] [("cccc", sampleWord)] hbad⟩

/-- C4: when the whole import payload validates, import_user_dict merges it
with the existing store — with override false every colliding identifier
keeps the existing stored record and payload entries appear only at
non-colliding identifiers; with override true every payload record wins and
existing entries survive only at non-colliding identifiers — and the merged
result is persisted with exactly one store write followed by exactly one
recompilation. -/
theorem import_user_dict_merge_semantics (table : List PartOfSpeechDetail)
    (valid_uuid : String → Bool) (dict_data : Store) (override : Bool)
    (old_dict : Store)
    (hok : validateImportData table valid_uuid dict_data = Except.ok ())
    (hnd_data : (keys dict_data).Nodup) (hnd_old : (keys old_dict).Nodup) :
    ∃ new_dict,
      import_user_dict table valid_uuid dict_data override old_dict
        = Except.ok (new_dict, [Event.writeStore new_dict, Event.recompile])
      ∧ (override = false → ∀ k v, lookup k old_dict = some v →
          lookup k new_dict = some v)
      ∧ (override = false → ∀ k, lookup k old_dict = none →
          lookup k new_dict = lookup k dict_data)
      ∧ (override = true → ∀ k v, lookup k dict_data = some v →
          lookup k new_dict = some v)
      ∧ (override = true → ∀ k, lookup k dict_data = none →
          lookup k new_dict = lookup k old_dict) := by
  refine ⟨if override then mergeDicts old_dict dict_data
          else mergeDicts dict_data old_dict, ?_, ?_, ?_, ?_, ?_⟩
  · simp only [import_user_dict, hok]
  · intro ho k v h
    subst ho
    simpa using lookup_mergeDicts_of_lookup_some k v dict_data old_dict hnd_old h
  · intro ho k h
    subst ho
    simpa using lookup_mergeDicts_of_lookup_none k dict_data old_dict h
  · intro ho k v h
    subst ho
    simpa using lookup_mergeDicts_of_lookup_some k v old_dict dict_data hnd_data h
  · intro ho k h
    subst ho
    simpa using lookup_mergeDicts_of_lookup_none k old_dict dict_data h

/-- C4 witness: a valid one-entry payload colliding with one of two
existing entries, imported without override. -/
theorem import_user_dict_merge_semantics_witness :
    validateImportData [samplePosDetail] (fun _ => true) [("aaaa", sampleWord2)]
      = Except.ok ()
    ∧ (keys [("aaaa", sampleWord2)]).Nodup
    ∧ (keys [("aaaa", sampleWord), ("bbbb", sampleWord2)]).Nodup
    ∧ ∃ new_dict,
        import_user_dict [samplePosDetail] (fun _ => true) [("aaaa", sampleWord2)]
            false [("aaaa", sampleWord), ("bbbb", sampleWord2)]
          = Except.ok (new_dict, [Event.writeStore new_dict, Event.recompile])
        ∧ (false = false → ∀ k v,
            lookup k [("aaaa", sampleWord), ("bbbb", sampleWord2)] = some v →
            lookup k new_dict = some v)
        ∧ (false = false → ∀ k,
            lookup k [("aaaa", sampleWord), ("bbbb", sampleWord2)] = none →
            lookup k new_dict = lookup k [("aaaa", sampleWord2)])
        ∧ (false = true → ∀ k v, lookup k [("aaaa", sampleWord2)] = some v →
            lookup k new_dict = some v)
        ∧ (false = true → ∀ k, lookup k [("aaaa", sampleWord2)] = none →
            lookup k new_dict = lookup k [("aaaa", sampleWord), ("bbbb", sampleWord2)]) := by
  refine ⟨?_, by simp [keys], by simp [keys], ?_⟩
  · simp [validateImportData, validateWordPos, samplePosDetail, sampleWord2, sampleWord,
      List.find?]
  · exact import_user_dict_merge_semantics [samplePosDetail] (fun _ => true)
      [("aaaa", sampleWord2)] false [("aaaa", sampleWord), ("bbbb", sampleWord2)]
      (by simp [validateImportData, validateWordPos, samplePosDetail, sampleWord2,
        sampleWord, List.find?])
      (by simp [keys]) (by simp [keys])

/-- C3: when recompilation runs (not the pytest-on-Windows escape hatch,
base files present) and the external compiler fails to produce the expected
output file, update_dict raises the RuntimeError to the caller after the
cleanup block ran: the permanent compiled-artifact slot is unchanged (so a
previously valid artifact is still referenced), the analyzer's active
dictionary is untouched (no partial activation), and both temporary files
are gone. -/
theorem update_dict_failure_keeps_artifact {α : Type}
    (compilerFn : String → Option α) (is_pytest is_win32 : Bool)
    (default_dict_files : List String) (priority2cost : Int → Int → Int)
    (st : EngineState α)
    (hrun : (is_pytest && is_win32) = false)
    (hfiles : default_dict_files.isEmpty = false)
    (hfail : compilerFn (build_csv_text priority2cost default_dict_files st.store)
      = none) :
    (update_dict compilerFn is_pytest is_win32 default_dict_files priority2cost st).1
      = Except.error "辞書のコンパイル時にエラーが発生しました。"
    ∧ (update_dict compilerFn is_pytest is_win32 default_dict_files
        priority2cost st).2.compiled_dict = st.compiled_dict
    ∧ (update_dict compilerFn is_pytest is_win32 default_dict_files
        priority2cost st).2.active_slot = st.active_slot
    ∧ (update_dict compilerFn is_pytest is_win32 default_dict_files
        priority2cost st).2.tmp_csv = none
    ∧ (update_dict compilerFn is_pytest is_win32 default_dict_files
        priority2cost st).2.tmp_compiled = none := by
  simp [update_dict, hrun, hfiles, hfail, cleanupTmp]

/-- C3 witness: a compiler that always fails, run over a state whose
permanent artifact slot holds a previously compiled dictionary. -/
theorem update_dict_failure_keeps_artifact_witness :
    ((false && false) = false
      ∧ (["a,1,1,0\n"] : List String).isEmpty = false
      ∧ (fun _ : String => (none : Option Nat))
          (build_csv_text (fun _ _ => 0) ["a,1,1,0\n"]
            (EngineState.mk [("aaaa", sampleWord)] (some 7) none none (some 7)).store)
        = none)
    ∧ ((update_dict (fun _ : String => (none : Option Nat)) false false ["a,1,1,0\n"]
          (fun _ _ => 0)
          (EngineState.mk [("aaaa", sampleWord)] (some 7) none none (some 7))).1
        = Except.error "辞書のコンパイル時にエラーが発生しました。"
      ∧ (update_dict (fun _ : String => (none : Option Nat)) false false ["a,1,1,0\n"]
          (fun _ _ => 0)
          (EngineState.mk [("aaaa", sampleWord)] (some 7) none none (some 7))).2.compiled_dict
        = (EngineState.mk [("aaaa", sampleWord)] (some 7) none none (some 7)).compiled_dict
      ∧ (update_dict (fun _ : String => (none : Option Nat)) false false ["a,1,1,0\n"]
          (fun _ _ => 0)
          (EngineState.mk [("aaaa", sampleWord)] (some 7) none none (some 7))).2.active_slot
        = (EngineState.mk [("aaaa", sampleWord)] (some 7) none none (some 7)).active_slot
      ∧ (update_dict (fun _ : String => (none : Option Nat)) false false ["a,1,1,0\n"]
          (fun _ _ => 0)
          (EngineState.mk [("aaaa", sampleWord)] (some 7) none none (some 7))).2.tmp_csv
        = none
      ∧ (update_dict (fun _ : String => (none : Option Nat)) false false ["a,1,1,0\n"]
          (fun _ _ => 0)
          (EngineState.mk [("aaaa", sampleWord)] (some 7) none none (some 7))).2.tmp_compiled
        = none) :=
  ⟨⟨rfl, rfl, rfl⟩,
    update_dict_failure_keeps_artifact (fun _ : String => (none : Option Nat))
      false false ["a,1,1,0\n"] (fun _ _ => 0)
      (EngineState.mk [("aaaa", sampleWord)] (some 7) none none (some 7))
      rfl rfl rfl⟩

/-- C8: when the base-lexicon directory yields zero source files,
update_dict logs and returns successfully (nothing-to-do, not a failure),
leaving the compiled-artifact file, the analyzer's active-dictionary slot
and the store untouched. -/
theorem update_dict_empty_base_noop {α : Type}
    (compilerFn : String → Option α) (is_pytest is_win32 : Bool)
    (priority2cost : Int → Int → Int) (st : EngineState α)
    (hrun : (is_pytest && is_win32) = false) :
    (update_dict compilerFn is_pytest is_win32 [] priority2cost st).1 = Except.ok ()
    ∧ (update_dict compilerFn is_pytest is_win32 [] priority2cost st).2.compiled_dict
        = st.compiled_dict
    ∧ (update_dict compilerFn is_pytest is_win32 [] priority2cost st).2.active_slot
        = st.active_slot
    ∧ (update_dict compilerFn is_pytest is_win32 [] priority2cost st).2.store
        = st.store := by
  simp [update_dict, hrun, cleanupTmp]

/-- C8 witness: an empty base-file list over a concrete state. -/
theorem update_dict_empty_base_noop_witness :
    ((false && false) = false)
    ∧ ((update_dict (fun s : String => some s.length) false false [] (fun _ _ => 0)
          (EngineState.mk [("aaaa", sampleWord)] (some 3) none none (some 3))).1
        = Except.ok ()
      ∧ (update_dict (fun s : String => some s.length) false false [] (fun _ _ => 0)
          (EngineState.mk [("aaaa", sampleWord)] (some 3) none none (some 3))).2.compiled_dict
        = (EngineState.mk [("aaaa", sampleWord)] (some 3) none none (some 3)).compiled_dict
      ∧ (update_dict (fun s : String => some s.length) false false [] (fun _ _ => 0)
          (EngineState.mk [("aaaa", sampleWord)] (some 3) none none (some 3))).2.active_slot
        = (EngineState.mk [("aaaa", sampleWord)] (some 3) none none (some 3)).active_slot
      ∧ (update_dict (fun s : String => some s.length) false false [] (fun _ _ => 0)
          (EngineState.mk [("aaaa", sampleWord)] (some 3) none none (some 3))).2.store
        = (EngineState.mk [("aaaa", sampleWord)] (some 3) none none (some 3)).store) :=
  ⟨rfl, update_dict_empty_base_noop (fun s : String => some s.length) false false
    (fun _ _ => 0) (EngineState.mk [("aaaa", sampleWord)] (some 3) none none (some 3)) rfl⟩

/-- C9: an update_dict invocation leaves no temporary source file and no
temporary compiled-artifact file behind on any exit path — the
pytest-on-Windows skip, the empty-base-lexicon return, a compiler failure,
or success — given that the invocation's randomly suffixed temporary paths
start out absent. -/
theorem update_dict_cleans_tmp_files {α : Type}
    (compilerFn : String → Option α) (is_pytest is_win32 : Bool)
    (default_dict_files : List String) (priority2cost : Int → Int → Int)
    (st : EngineState α)
    (hcsv : st.tmp_csv = none) (hcompiled : st.tmp_compiled = none) :
    (update_dict compilerFn is_pytest is_win32 default_dict_files
        priority2cost st).2.tmp_csv = none
    ∧ (update_dict compilerFn is_pytest is_win32 default_dict_files
        priority2cost st).2.tmp_compiled = none := by
  by_cases hrun : (is_pytest && is_win32) = true
  · simp [update_dict, hrun, hcsv, hcompiled]
  · rw [Bool.not_eq_true] at hrun
    by_cases hfiles : default_dict_files.isEmpty = true
    · simp [update_dict, hrun, hfiles, cleanupTmp]
    · rw [Bool.not_eq_true] at hfiles
      cases hc : compilerFn
          (build_csv_text priority2cost default_dict_files st.store) with
      | none => simp [update_dict, hrun, hfiles, hc, cleanupTmp]
      | some a => simp [update_dict, hrun, hfiles, hc, cleanupTmp]

/-- C9 witness: a successful invocation over a concrete state with no
pre-existing temporary files. -/
theorem update_dict_cleans_tmp_files_witness :
    ((EngineState.mk [("aaaa", sampleWord)] (some 3) none none (some 3)
        : EngineState Nat).tmp_csv = none
      ∧ (EngineState.mk [("aaaa", sampleWord)] (some 3) none none (some 3)
        : EngineState Nat).tmp_compiled = none)
    ∧ ((update_dict (fun s : String => some s.length) false false ["a\n"] (fun _ _ => 0)
          (EngineState.mk [("aaaa", sampleWord)] (some 3) none none (some 3))).2.tmp_csv
        = none
      ∧ (update_dict (fun s : String => some s.length) false false ["a\n"] (fun _ _ => 0)
          (EngineState.mk [("aaaa", sampleWord)] (some 3) none none
            (some 3))).2.tmp_compiled
        = none) :=
  ⟨⟨rfl, rfl⟩, update_dict_cleans_tmp_files (fun s : String => some s.length) false false
    ["a\n"] (fun _ _ => 0)
    (EngineState.mk [("aaaa", sampleWord)] (some 3) none none (some 3)) rfl rfl⟩

/-- C10: constructing a UserDictionary runs one full recompilation before
the constructor returns — under normal conditions (no pytest-on-Windows
skip, base files present, compiler succeeds) the post-construction compiled
artifact is exactly the compilation of the persisted store merged with the
base lexicon, and the analyzer's active-dictionary slot references it. -/
theorem init_activates_compiled_store {α : Type}
    (compilerFn : String → Option α) (is_pytest is_win32 : Bool)
    (default_dict_files : List String) (priority2cost : Int → Int → Int)
    (st : EngineState α) (artifact : α)
    (hrun : (is_pytest && is_win32) = false)
    (hfiles : default_dict_files.isEmpty = false)
    (hcompile : compilerFn (build_csv_text priority2cost default_dict_files st.store)
      = some artifact) :
    userDictionaryInit compilerFn is_pytest is_win32 default_dict_files
        priority2cost st
      = (Except.ok (),
          { st with compiled_dict := some artifact, active_slot := some artifact,
                    tmp_csv := none, tmp_compiled := none }) := by
  simp [userDictionaryInit, update_dict, hrun, hfiles, hcompile, cleanupTmp]

/-- C10 witness: construction over a concrete persisted store with a
compiler that hashes the staged CSV to its length. -/
theorem init_activates_compiled_store_witness :
    ((false && false) = false
      ∧ (["a\n"] : List String).isEmpty = false
      ∧ (fun s : String => some s.length)
          (build_csv_text (fun _ _ => 0) ["a\n"]
            (EngineState.mk [("aaaa", sampleWord)] none none none none
              : EngineState Nat).store)
        = some (build_csv_text (fun _ _ => 0) ["a\n"]
            (EngineState.mk [("aaaa", sampleWord)] none none none none
              : EngineState Nat).store).length)
    ∧ userDictionaryInit (fun s : String => some s.length) false false ["a\n"]
        (fun _ _ => 0)
        (EngineState.mk [("aaaa", sampleWord)] none none none none : EngineState Nat)
      = (Except.ok (),
          EngineState.mk [("aaaa", sampleWord)]
            (some (build_csv_text (fun _ _ => 0) ["a\n"]
              (EngineState.mk [("aaaa", sampleWord)] none none none none
                : EngineState Nat).store).length)
            none none
            (some (build_csv_text (fun _ _ => 0) ["a\n"]
              (EngineState.mk [("aaaa", sampleWord)] none none none none
                : EngineState Nat).store).length)) :=
  ⟨⟨rfl, rfl, rfl⟩,
    init_activates_compiled_store (fun s : String => some s.length) false false ["a\n"]
      (fun _ _ => 0)
      (EngineState.mk [("aaaa", sampleWord)] none none none none : EngineState Nat)
      (build_csv_text (fun _ _ => 0) ["a\n"]
        (EngineState.mk [("aaaa", sampleWord)] none none none none
          : EngineState Nat).store).length
      rfl rfl rfl⟩

/-- C6: for every parseable store file, reading the user dictionary with
read_dict and immediately writing it back with _write_to_json does not
alter which identifiers map to which records: re-reading the written file
yields exactly the same store.  The save-format codec is lossless (spec:
SaveFormatWordRecord is a lossless reversible transform) and the UUID
canonicalisation str(UUID(·)) applied to keys is idempotent; both are
hypotheses on the parameters. -/
theorem read_write_roundtrip_preserves_store {σ : Type}
    (convert_from_save_format : σ → UserDictWord)
    (convert_to_save_format : UserDictWord → σ)
    (canon_uuid : String → String)
    (hcodec : ∀ w, convert_from_save_format (convert_to_save_format w) = w)
    (hcanon : ∀ u, canon_uuid (canon_uuid u) = canon_uuid u)
    (entries : List (String × σ)) :
    read_dict convert_from_save_format canon_uuid
        (write_to_json convert_to_save_format
          (read_dict convert_from_save_format canon_uuid entries))
      = read_dict convert_from_save_format canon_uuid entries := by
  have hnd : (keys (read_dict convert_from_save_format canon_uuid entries)).Nodup :=
    keys_nodup_read_fold convert_from_save_format canon_uuid entries [] (by simp [keys])
  have hcan : ∀ kv ∈ read_dict convert_from_save_format canon_uuid entries,
      canon_uuid kv.1 = kv.1 :=
    read_fold_key_canon convert_from_save_format canon_uuid hcanon entries []
      (by intro kv hkv; simp at hkv)
  have hmap : read_dict convert_from_save_format canon_uuid
        (write_to_json convert_to_save_format
          (read_dict convert_from_save_format canon_uuid entries))
      = (read_dict convert_from_save_format canon_uuid entries).foldl
          (fun r kv => insertEntry (canon_uuid kv.1)
            (convert_from_save_format (convert_to_save_format kv.2)) r) [] := by
    simp [read_dict, write_to_json, List.foldl_map]
  rw [hmap]
  have happ := foldl_insert_fixed_eq_append canon_uuid
    (fun w => convert_from_save_format (convert_to_save_format w))
    (read_dict convert_from_save_format canon_uuid entries) []
    (fun kv hm => ⟨hcan kv hm, hcodec kv.2⟩) (by simpa using hnd)
  simpa using happ

/-- C6 witness: the identity codec and identity canonicalisation over a
concrete one-entry store file. -/
theorem read_write_roundtrip_preserves_store_witness :
    (∀ w : UserDictWord, (fun x : UserDictWord => x) ((fun x : UserDictWord => x) w) = w)
    ∧ (∀ u : String,
        (fun x : String => x) ((fun x : String => x) u) = (fun x : String => x) u)
    ∧ read_dict (fun x : UserDictWord => x) (fun x : String => x)
        (write_to_json (fun x : UserDictWord => x)
          (read_dict (fun x : UserDictWord => x) (fun x : String => x)
            [("aaaa", sampleWord)]))
      = read_dict (fun x : UserDictWord => x) (fun x : String => x)
          [("aaaa", sampleWord)] :=
  ⟨fun _ => rfl, fun _ => rfl,
    read_write_roundtrip_preserves_store (fun x => x) (fun x => x) (fun x => x)
      (fun _ => rfl) (fun _ => rfl) [("aaaa", sampleWord)]⟩

/-- C1 counterexample: the claim that concurrent read-modify-write
sequences are linearizable under the store lock fails on the code, because
apply_word carries no mutex_wrapper — only its inner read_dict and
_write_to_json calls do.  In the concrete interleaving read-A, read-B,
write-A, write-B over an initially empty store, both apply_word calls run
to completion and return the distinct identifiers 1111 and 2222, yet the
entry added under 1111 is absent from the final store: a lost update. -/
theorem apply_word_interleaving_loses_update :
    ("1111" : String) ≠ "2222"
    ∧ (runSchedule "1111" "2222" sampleWord sampleWord2
        [false, true, false, true] initialConcState).pcA = 2
    ∧ (runSchedule "1111" "2222" sampleWord sampleWord2
        [false, true, false, true] initialConcState).pcB = 2
    ∧ lookup "1111" (runSchedule "1111" "2222" sampleWord sampleWord2
        [false, true, false, true] initialConcState).shared = none
    ∧ (runSchedule "1111" "2222" sampleWord sampleWord2
        [false, true, false, true] initialConcState).shared
      = [("2222", sampleWord2)] :=
  ⟨by decide, rfl, rfl, rfl, rfl⟩

/-- C1 amended: each individual read_dict and _write_to_json call is atomic
under mutex_user_dict, but apply_word's whole read-modify-write sequence is
not serialized, so overlapping calls can lose updates; when two apply_word
calls do not overlap (the second starts after the first finished), both
succeed with their distinct identifiers and both entries are present in the
final store. -/
theorem apply_word_serialized_no_lost_update (uuidA uuidB : String)
    (wA wB : UserDictWord) (h : uuidA ≠ uuidB) :
    (runSchedule uuidA uuidB wA wB [false, false, true, true]
        initialConcState).pcA = 2
    ∧ (runSchedule uuidA uuidB wA wB [false, false, true, true]
        initialConcState).pcB = 2
    ∧ lookup uuidA (runSchedule uuidA uuidB wA wB [false, false, true, true]
        initialConcState).shared = some wA
    ∧ lookup uuidB (runSchedule uuidA uuidB wA wB [false, false, true, true]
        initialConcState).shared = some wB := by
  simp [runSchedule, applyWordStep, initialConcState, insertEntry, lookup, h, Ne.symm h]

/-- C1 witness for the amended claim: two serialized apply_word calls with
concrete distinct identifiers. -/
theorem apply_word_serialized_no_lost_update_witness :
    ("1111" : String) ≠ "2222"
    ∧ ((runSchedule "1111" "2222" sampleWord sampleWord2 [false, false, true, true]
          initialConcState).pcA = 2
      ∧ (runSchedule "1111" "2222" sampleWord sampleWord2 [false, false, true, true]
          initialConcState).pcB = 2
      ∧ lookup "1111" (runSchedule "1111" "2222" sampleWord sampleWord2
          [false, false, true, true] initialConcState).shared = some sampleWord
      ∧ lookup "2222" (runSchedule "1111" "2222" sampleWord sampleWord2
          [false, false, true, true] initialConcState).shared = some sampleWord2) :=
  ⟨by decide, apply_word_serialized_no_lost_update "1111" "2222" sampleWord sampleWord2
    (by decide)⟩

end UserDict
